import Mathlib

/-!
Shallow embedding of `raspberry_gpio_api` (files `gpio_controller.py` and
`app.py`) and proofs about it.

Modelling conventions:
* Pin identifiers are `Int` (Python `int`); logical levels are `Nat`
  (`GPIO.HIGH = 1`, `GPIO.LOW = 0`).
* Python `dict`s become association lists (`List (Int × β)`, first match
  wins, updates overwrite the first matching entry); Python `set`s become
  insertion-ordered duplicate-free `List Int`.
* The driver (`RPi.GPIO` or its `MockGPIO` substitute) is modelled with the
  mock's in-memory semantics (`_pin_modes`, `_pin_states`) plus failure
  injection flags (`DriverFail`) standing for the real backend's ability to
  raise from any call; `MockGPIO.output` additionally raises when the pin
  has no mode set, exactly as in the source.
* A raised Python exception is `Out.exn`; a `try/except` block is a match on
  that constructor.  `self.lock` is a non-reentrant `threading.Lock`, so
  acquiring it while it is already held blocks the (single) thread forever:
  `Out.dead`.  A `with self.lock:` block releases the lock both on normal
  exit and when an exception passes through, mirrored by `withLock`.
* Every driver call is appended to a `trace` field, so "no driver call is
  made" is expressible as trace equality.
-/

namespace GpioApi

/-- Association-list update: overwrite the first entry with key `k`, or
append `(k, v)` when no entry has key `k` (Python `dict` assignment). -/
def setA {β : Type} (m : List (Int × β)) (k : Int) (v : β) : List (Int × β) :=
  match m with
  | [] => [(k, v)]
  | (k', v') :: rest => if k' = k then (k, v) :: rest else (k', v') :: setA rest k v

/-- Association-list lookup (Python `dict` access). -/
def lookupA {β : Type} (m : List (Int × β)) (k : Int) : Option β :=
  match m with
  | [] => none
  | (k', v') :: rest => if k' = k then some v' else lookupA rest k

/-- Number of entries with key `k`. -/
def keyCount {β : Type} (m : List (Int × β)) (k : Int) : Nat :=
  match m with
  | [] => 0
  | (k', _) :: rest => (if k' = k then 1 else 0) + keyCount rest k

/-- Python `set.add`: keep insertion order, no duplicates. -/
def insertPin (pin : Int) (l : List Int) : List Int :=
  if pin ∈ l then l else l ++ [pin]

/-- One driver call, as recorded in the call trace. -/
inductive DrvCall where
  | setmode
  | setup (pin : Int) (initial : Nat)
  | output (pin : Int) (level : Nat)
  | input (pin : Int)
  | cleanup
deriving DecidableEq, Repr

/-- Failure injection for the driver: which calls raise.  The mock backend
never raises except for `output` on a mode-less pin; the real `RPi.GPIO`
backend may raise from any call, which these flags represent. -/
structure DriverFail where
  setmodeFails : Bool
  setupFails : Int → Nat → Bool
  outputFails : Int → Nat → Bool
  inputFails : Int → Bool
  cleanupFails : Bool

/-- The driver that never fails: the `MockGPIO` simulation backend. -/
def noFail : DriverFail :=
  { setmodeFails := false
    setupFails := fun _ _ => false
    outputFails := fun _ _ => false
    inputFails := fun _ => false
    cleanupFails := false }

/-- Driver-side state: `MockGPIO._pin_modes` (keys only; every mode the
controller ever sets is `OUT`) and `MockGPIO._pin_states`. -/
structure DrvState where
  pinModes : List Int
  pinLevels : List (Int × Nat)
deriving DecidableEq, Repr

/-- Controller + driver state: the fields assigned in
`GPIOController.__init__` (`configured_pins`, `pin_states`, the lock,
`is_initialized`), the driver state, and the driver-call trace. -/
structure CtrlState where
  configuredPins : List Int
  pinStates : List (Int × Nat)
  lockHeld : Bool
  isInitialized : Bool
  drv : DrvState
  trace : List DrvCall
deriving DecidableEq, Repr

/-- Outcome of running a controller method: normal return, an uncaught
Python exception carrying the state at the raise point, or a deadlocked
thread (blocked forever re-acquiring the non-reentrant lock). -/
inductive Out (α : Type) where
  | ok : α → CtrlState → Out α
  | exn : CtrlState → Out α
  | dead : CtrlState → Out α
deriving DecidableEq, Repr

/-- The state carried by an outcome. -/
def Out.state {α : Type} : Out α → CtrlState
  | .ok _ s => s
  | .exn s => s
  | .dead s => s

/-- Whether the outcome is an uncaught exception. -/
def Out.isExn {α : Type} : Out α → Bool
  | .exn _ => true
  | _ => false

/-- Whether the outcome is a deadlock. -/
def Out.isDead {α : Type} : Out α → Bool
  | .dead _ => true
  | _ => false

/-- The returned value, when the call returned normally. -/
def Out.resultOf {α : Type} : Out α → Option α
  | .ok a _ => some a
  | _ => none

/-- Record one driver call in the trace. -/
def traced (s : CtrlState) (c : DrvCall) : CtrlState :=
  { s with trace := s.trace ++ [c] }

/-- Drop the lock. -/
def relLock (s : CtrlState) : CtrlState :=
  { s with lockHeld := false }

/-- Python `with self.lock:` around `body` for a non-reentrant
`threading.Lock`: re-acquiring while held blocks forever; otherwise the
lock is released on normal exit and when an exception escapes `body`. -/
def withLock {α : Type} (s : CtrlState) (body : CtrlState → Out α) : Out α :=
  if s.lockHeld then .dead s
  else
    match body { s with lockHeld := true } with
    | .ok a s' => .ok a (relLock s')
    | .exn s' => .exn (relLock s')
    | .dead s' => .dead s'

/-- `GPIO.setmode(GPIO.BCM)`: the mock performs no state change. -/
def gpioSetmode (f : DriverFail) (s : CtrlState) : Out Unit :=
  let s := traced s .setmode
  if f.setmodeFails then .exn s else .ok () s

/-- `GPIO.setup(pin, GPIO.OUT, initial=initial)`: record the mode and the
initial level (mock lines 38-44). -/
def gpioSetup (f : DriverFail) (pin : Int) (initial : Nat) (s : CtrlState) : Out Unit :=
  let s := traced s (.setup pin initial)
  if f.setupFails pin initial then .exn s
  else .ok () { s with drv := { pinModes := insertPin pin s.drv.pinModes,
                                pinLevels := setA s.drv.pinLevels pin initial } }

/-- `GPIO.output(pin, level)`: raises when the pin has no mode set (mock
lines 46-52), or when the injected failure fires. -/
def gpioOutput (f : DriverFail) (pin : Int) (level : Nat) (s : CtrlState) : Out Unit :=
  let s := traced s (.output pin level)
  if f.outputFails pin level ∨ pin ∉ s.drv.pinModes then .exn s
  else .ok () { s with drv := { s.drv with pinLevels := setA s.drv.pinLevels pin level } }

/-- `GPIO.input(pin)`: the mock returns `_pin_states.get(pin, LOW)`
(line 54-56). -/
def gpioInput (f : DriverFail) (pin : Int) (s : CtrlState) : Out Nat :=
  let s := traced s (.input pin)
  if f.inputFails pin then .exn s
  else .ok ((lookupA s.drv.pinLevels pin).getD 0) s

/-- `GPIO.cleanup()`: the mock clears both driver maps (lines 58-62). -/
def gpioCleanup (f : DriverFail) (s : CtrlState) : Out Unit :=
  let s := traced s .cleanup
  if f.cleanupFails then .exn s
  else .ok () { s with drv := { pinModes := [], pinLevels := [] } }

/-- The controller state as assigned by `__init__` (lines 69-73), before
`_initialize_gpio` runs. -/
def rawState : CtrlState :=
  { configuredPins := []
    pinStates := []
    lockHeld := false
    isInitialized := false
    drv := { pinModes := [], pinLevels := [] }
    trace := [] }

/-- `GPIOController._initialize_gpio` (lines 77-87).  Note the `except`
clause logs and *re-raises*, so a driver failure propagates out (and hence
out of `__init__`, which calls this). -/
def initializeGpio (f : DriverFail) (s : CtrlState) : Out Unit :=
  withLock s fun s1 =>
    if s1.isInitialized then .ok () s1
    else
      match gpioSetmode f s1 with
      | .ok _ s2 => .ok () { s2 with isInitialized := true }
      | .exn s2 => .exn s2
      | .dead s2 => .dead s2

/-- The valid BCM pin set of `_validate_pin` (line 92). -/
def validPins : List Int :=
  [2, 3, 4, 5, 6, 7, 8, 9, 10, 11, 12, 13, 14, 15, 16, 17, 18, 19, 20,
   21, 22, 23, 24, 25, 26, 27]

/-- `GPIOController._validate_pin` (lines 89-98). -/
def validate_pin (pin : Int) : Bool :=
  decide (pin ∈ validPins)

/-- `except` handler that logs and returns `False`. -/
def catchFalse : Out Bool → Out Bool
  | .exn s => .ok false s
  | r => r

/-- `except` handler that logs and returns `None`. -/
def catchNone : Out (Option Nat) → Out (Option Nat)
  | .exn s => .ok none s
  | r => r

/-- `except` handler that logs and returns nothing (used by `cleanup`). -/
def catchUnit : Out Unit → Out Unit
  | .exn s => .ok () s
  | r => r

/-- `GPIOController.setup_pin` (lines 100-115).  The Python default for
`initial_state` is `GPIO.LOW = 0`; callers relying on the default pass `0`
here. -/
def setup_pin (f : DriverFail) (pin : Int) (initial : Nat) (s : CtrlState) : Out Bool :=
  catchFalse (
    if validate_pin pin then
      withLock s fun s1 =>
        match gpioSetup f pin initial s1 with
        | .ok _ s2 =>
            .ok true { s2 with configuredPins := insertPin pin s2.configuredPins,
                               pinStates := setA s2.pinStates pin initial }
        | .exn s2 => .exn s2
        | .dead s2 => .dead s2
    else .ok false s)

/-- Loop body of `GPIOController.setup_pins` (lines 117-132): build the
`results` dict in input order. -/
def setup_pins_loop (f : DriverFail) (initial : Nat) :
    List Int → List (Int × Bool) → CtrlState → Out (List (Int × Bool))
  | [], results, s => .ok results s
  | p :: rest, results, s =>
    match setup_pin f p initial s with
    | .ok b s' => setup_pins_loop f initial rest (setA results p b) s'
    | .exn s' => .exn s'
    | .dead s' => .dead s'

/-- `GPIOController.setup_pins` (lines 117-132). -/
def setup_pins (f : DriverFail) (pins : List Int) (initial : Nat) (s : CtrlState) :
    Out (List (Int × Bool)) :=
  setup_pins_loop f initial pins [] s

/-- The `with self.lock:` block of `turn_on` (lines 142-146). -/
def turn_on_write (f : DriverFail) (pin : Int) (s : CtrlState) : Out Bool :=
  withLock s fun s1 =>
    match gpioOutput f pin 1 s1 with
    | .ok _ s2 => .ok true { s2 with pinStates := setA s2.pinStates pin 1 }
    | .exn s2 => .exn s2
    | .dead s2 => .dead s2

/-- `GPIOController.turn_on` (lines 134-150): auto-configure an
unconfigured pin (with the default initial level) before writing HIGH. -/
def turn_on (f : DriverFail) (pin : Int) (s : CtrlState) : Out Bool :=
  catchFalse (
    if pin ∈ s.configuredPins then turn_on_write f pin s
    else
      match setup_pin f pin 0 s with
      | .ok true s' => turn_on_write f pin s'
      | .ok false s' => .ok false s'
      | .exn s' => .exn s'
      | .dead s' => .dead s')

/-- The `with self.lock:` block of `turn_off` (lines 160-164). -/
def turn_off_write (f : DriverFail) (pin : Int) (s : CtrlState) : Out Bool :=
  withLock s fun s1 =>
    match gpioOutput f pin 0 s1 with
    | .ok _ s2 => .ok true { s2 with pinStates := setA s2.pinStates pin 0 }
    | .exn s2 => .exn s2
    | .dead s2 => .dead s2

/-- `GPIOController.turn_off` (lines 152-168). -/
def turn_off (f : DriverFail) (pin : Int) (s : CtrlState) : Out Bool :=
  catchFalse (
    if pin ∈ s.configuredPins then turn_off_write f pin s
    else
      match setup_pin f pin 0 s with
      | .ok true s' => turn_off_write f pin s'
      | .ok false s' => .ok false s'
      | .exn s' => .exn s'
      | .dead s' => .dead s')

/-- `GPIOController.get_pin_state` (lines 183-198): `None` for an
unconfigured pin; otherwise read the hardware level, refresh the cache and
return it.  A raising read is caught and reported as `None`. -/
def get_pin_state (f : DriverFail) (pin : Int) (s : CtrlState) : Out (Option Nat) :=
  catchNone (
    if pin ∉ s.configuredPins then .ok none s
    else
      withLock s fun s1 =>
        match gpioInput f pin s1 with
        | .ok v s2 => .ok (some v) { s2 with pinStates := setA s2.pinStates pin v }
        | .exn s2 => .exn s2
        | .dead s2 => .dead s2)

/-- One entry of the `get_all_pins_status` result dict (lines 206-210). -/
structure PinStatus where
  state : Option Nat
  state_name : String
  configured : Bool
deriving DecidableEq, Repr

/-- Loop of `GPIOController.get_all_pins_status` (lines 200-212). -/
def get_all_pins_status_loop (f : DriverFail) :
    List Int → List (Int × PinStatus) → CtrlState → Out (List (Int × PinStatus))
  | [], acc, s => .ok acc s
  | p :: rest, acc, s =>
    match get_pin_state f p s with
    | .ok st s' =>
        get_all_pins_status_loop f rest
          (setA acc p { state := st,
                        state_name := if st = some 1 then "HIGH" else "LOW",
                        configured := true }) s'
    | .exn s' => .exn s'
    | .dead s' => .dead s'

/-- `GPIOController.get_all_pins_status` (lines 200-212); it has no
`try/except` of its own. -/
def get_all_pins_status (f : DriverFail) (s : CtrlState) : Out (List (Int × PinStatus)) :=
  get_all_pins_status_loop f s.configuredPins [] s

/-- `GPIOController.toggle` (lines 170-181). -/
def toggle (f : DriverFail) (pin : Int) (s : CtrlState) : Out Bool :=
  catchFalse (
    match get_pin_state f pin s with
    | .ok st s' => if st = some 1 then turn_off f pin s' else turn_on f pin s'
    | .exn s' => .exn s'
    | .dead s' => .dead s')

/-- `GPIOController.pulse` (lines 214-226); `time.sleep` is modelled as a
no-op. -/
def pulse (f : DriverFail) (pin : Int) (s : CtrlState) : Out Bool :=
  catchFalse (
    match turn_on f pin s with
    | .ok true s' => turn_off f pin s'
    | .ok false s' => .ok false s'
    | .exn s' => .exn s'
    | .dead s' => .dead s')

/-- Loop of `GPIOController.blink` (lines 228-244); `time.sleep` is a
no-op. -/
def blink_loop (f : DriverFail) (pin : Int) : Nat → CtrlState → Out Bool
  | 0, s => .ok true s
  | n + 1, s =>
    match turn_on f pin s with
    | .ok false s' => .ok false s'
    | .ok true s' =>
      match turn_off f pin s' with
      | .ok false s'' => .ok false s''
      | .ok true s'' => blink_loop f pin n s''
      | .exn s'' => .exn s''
      | .dead s'' => .dead s''
    | .exn s' => .exn s'
    | .dead s' => .dead s'

/-- `GPIOController.blink` (lines 228-244). -/
def blink (f : DriverFail) (pin : Int) (times : Nat) (s : CtrlState) : Out Bool :=
  catchFalse (blink_loop f pin times s)

/-- Loop of `GPIOController.turn_all_off` (lines 249-252). -/
def turn_all_off_loop (f : DriverFail) : List Int → Bool → CtrlState → Out Bool
  | [], success, s => .ok success s
  | p :: rest, success, s =>
    match turn_off f p s with
    | .ok b s' => turn_all_off_loop f rest (success && b) s'
    | .exn s' => .exn s'
    | .dead s' => .dead s'

/-- `GPIOController.turn_all_off` (lines 246-263). -/
def turn_all_off (f : DriverFail) (s : CtrlState) : Out Bool :=
  catchFalse (turn_all_off_loop f s.configuredPins true s)

/-- `GPIOController.cleanup` (lines 265-280).  It acquires `self.lock` and,
while holding it, calls `turn_all_off` (line 271), whose `turn_off` calls
re-acquire the same non-reentrant lock. -/
def cleanup (f : DriverFail) (s : CtrlState) : Out Unit :=
  catchUnit (
    withLock s fun s1 =>
      if s1.isInitialized then
        match turn_all_off f s1 with
        | .ok _ s2 =>
          match gpioCleanup f s2 with
          | .ok _ s3 =>
              .ok () { s3 with configuredPins := [], pinStates := [], isInitialized := false }
          | .exn s3 => .exn s3
          | .dead s3 => .dead s3
        | .exn s2 => .exn s2
        | .dead s2 => .dead s2
      else .ok () s1)

/-- `GPIOController.get_configured_pins` (lines 282-284). -/
def get_configured_pins (s : CtrlState) : List Int :=
  s.configuredPins

/-- `GPIOController.is_pin_configured` (lines 286-288). -/
def is_pin_configured (pin : Int) (s : CtrlState) : Bool :=
  decide (pin ∈ s.configuredPins)

/-- The state of a freshly constructed controller after a successful
`__init__` with a working driver: `GPIO.setmode` ran once and
`is_initialized` is set. -/
def initState : CtrlState :=
  { rawState with isInitialized := true, trace := [DrvCall.setmode] }

/-- JSON body of `app.py`'s `GET /api/gpio/<pin>/status` success branch
(lines 90-95): `state` is the string field `'state'`, `value` the raw
controller result. -/
structure StatusResponse where
  status : String
  pin : Int
  state_name : String
  value : Option Nat
deriving DecidableEq, Repr

/-- Python truthiness of the controller's `Optional[int]` result, as used
by `'HIGH' if state else 'LOW'` (`app.py` line 93): `None` and `0` are
falsy. -/
def pyTruthy : Option Nat → Bool
  | none => false
  | some n => n != 0

/-- `app.py` `get_pin_status` (lines 85-102), success branch: builds the
response from `gpio_controller.get_pin_state(pin)`. -/
def get_pin_status_route (f : DriverFail) (pin : Int) (s : CtrlState) : Out StatusResponse :=
  match get_pin_state f pin s with
  | .ok st s' =>
      .ok { status := "success", pin := pin,
            state_name := if pyTruthy st then "HIGH" else "LOW",
            value := st } s'
  | .exn s' => .exn s'
  | .dead s' => .dead s'

/-!
Fine-grained view of `turn_on`/`turn_off` ("setLevel") for the concurrency
claim: the method body as a list of atomic actions, one per source line.
`checkPin` is the `if pin not in self.configured_pins` test (line 137/155),
executed *before* `with self.lock:`; `acquire`/`release` delimit the
`with self.lock:` block (line 142/160); `drvWrite` is `GPIO.output`
(line 143/161) and `regWrite` the `self.pin_states[pin] = level`
assignment (line 144/162).
-/

/-- One atomic step of a `setLevel` call. -/
inductive Act where
  | checkPin (pin : Int)
  | acquire
  | drvWrite (pin : Int) (level : Nat)
  | regWrite (pin : Int) (level : Nat)
  | release
deriving DecidableEq, Repr

/-- The action sequence of `turn_on pin` (level 1) or `turn_off pin`
(level 0) on an already-configured pin. -/
def setLevelActs (pin : Int) (level : Nat) : List Act :=
  [.checkPin pin, .acquire, .drvWrite pin level, .regWrite pin level, .release]

/-- Does the action observe or mutate the controller registry
(`configured_pins` / `pin_states`)? -/
def touchesRegistry : Act → Bool
  | .checkPin _ => true
  | .regWrite _ _ => true
  | _ => false

/-- Does the action mutate the controller registry? -/
def mutatesRegistry : Act → Bool
  | .regWrite _ _ => true
  | _ => false

/-- Running the action list sequentially with lock-depth accounting, does
some action satisfying `sel` execute while the lock is not held? -/
def unlockedAccess (sel : Act → Bool) : List Act → Nat → Bool
  | [], _ => false
  | a :: rest, depth =>
    (sel a && depth == 0) ||
    unlockedAccess sel rest
      (match a with
       | .acquire => depth + 1
       | .release => depth - 1
       | _ => depth)

/-- Two threads, each running a `setLevel` action sequence; `pcA`/`pcB`
index into the respective action list, `lockBy` records the lock holder
(`some true` = thread A), `reg` is `pin_states` and `drvm` the driver's
`_pin_states`. -/
structure TT where
  pcA : Nat
  pcB : Nat
  lockBy : Option Bool
  reg : List (Int × Nat)
  drvm : List (Int × Nat)
deriving DecidableEq, Repr

/-- Execute one action on the shared state; `none` result means the thread
is blocked (acquire while the other holds the lock). -/
def actStep (isA : Bool) (a : Act) (lockBy : Option Bool) (reg drvm : List (Int × Nat)) :
    Option (Option Bool × List (Int × Nat) × List (Int × Nat)) :=
  match a with
  | .checkPin _ => some (lockBy, reg, drvm)
  | .acquire =>
      match lockBy with
      | some _ => none
      | none => some (some isA, reg, drvm)
  | .release => some (none, reg, drvm)
  | .drvWrite p l => some (lockBy, reg, setA drvm p l)
  | .regWrite p l => some (lockBy, setA reg p l, drvm)

/-- Schedule one step of the chosen thread: perform its next enabled
action, or leave the state unchanged when the thread is done or blocked. -/
def ttStep (progA progB : List Act) (t : TT) (isA : Bool) : TT :=
  let pc := if isA then t.pcA else t.pcB
  match (if isA then progA else progB)[pc]? with
  | none => t
  | some a =>
    match actStep isA a t.lockBy t.reg t.drvm with
    | none => t
    | some (lk, reg', drvm') =>
      if isA then { t with pcA := pc + 1, lockBy := lk, reg := reg', drvm := drvm' }
      else { t with pcB := pc + 1, lockBy := lk, reg := reg', drvm := drvm' }

/-- Run a schedule (`true` = step thread A). -/
def ttRun (progA progB : List Act) (t : TT) : List Bool → TT
  | [] => t
  | c :: cs => ttRun progA progB (ttStep progA progB t c) cs

/-- Invariant of the two-thread `setLevel` interleaving: program counters
stay in range, and once a thread has executed its write action its pin's
entry holds its level (the other thread writes only its own, different
pin). -/
def ttInv (pA pB : Int) (lA lB : Nat) (t : TT) : Prop :=
  t.pcA ≤ 5 ∧ t.pcB ≤ 5 ∧
  (3 ≤ t.pcA → lookupA t.drvm pA = some lA) ∧
  (4 ≤ t.pcA → lookupA t.reg pA = some lA) ∧
  (3 ≤ t.pcB → lookupA t.drvm pB = some lB) ∧
  (4 ≤ t.pcB → lookupA t.reg pB = some lB)

/-- The public controller operations, for quantifying over call
sequences. -/
inductive Op where
  | setupPinOp (pin : Int) (initial : Nat)
  | setupPinsOp (pins : List Int) (initial : Nat)
  | turnOnOp (pin : Int)
  | turnOffOp (pin : Int)
  | toggleOp (pin : Int)
  | getPinStateOp (pin : Int)
  | getAllPinsStatusOp
  | pulseOp (pin : Int)
  | blinkOp (pin : Int) (times : Nat)
  | turnAllOffOp
  | cleanupOp
deriving Repr

/-- Forget an operation's return value, keeping the outcome kind and
state. -/
def Out.toUnit {α : Type} : Out α → Out Unit
  | .ok _ s' => .ok () s'
  | .exn s' => .exn s'
  | .dead s' => .dead s'

/-- Dispatch one public operation, discarding its return value.
`get_configured_pins`, `is_pin_configured` and `get_system_info` only read
plain attributes and change nothing, so they are omitted. -/
def applyOp (f : DriverFail) : Op → CtrlState → Out Unit
  | .setupPinOp p i, s => (setup_pin f p i s).toUnit
  | .setupPinsOp ps i, s => (setup_pins f ps i s).toUnit
  | .turnOnOp p, s => (turn_on f p s).toUnit
  | .turnOffOp p, s => (turn_off f p s).toUnit
  | .toggleOp p, s => (toggle f p s).toUnit
  | .getPinStateOp p, s => (get_pin_state f p s).toUnit
  | .getAllPinsStatusOp, s => (get_all_pins_status f s).toUnit
  | .pulseOp p, s => (pulse f p s).toUnit
  | .blinkOp p n, s => (blink f p n s).toUnit
  | .turnAllOffOp, s => (turn_all_off f s).toUnit
  | .cleanupOp, s => (cleanup f s).toUnit

/-- Run a sequence of public operations; a deadlocked call blocks its
thread forever, so later operations never run. -/
def runOps (f : DriverFail) : List Op → CtrlState → CtrlState
  | [], s => s
  | o :: rest, s =>
    match applyOp f o s with
    | .ok _ s' => runOps f rest s'
    | .exn s' => s'
    | .dead s' => s'

/-- The registry invariant: a pin is in `configured_pins` exactly when it
has a cached entry in `pin_states`. -/
def regInv (s : CtrlState) : Prop :=
  ∀ p : Int, p ∈ s.configuredPins ↔ (lookupA s.pinStates p).isSome = true

/-- Whether the driver write `GPIO.output(p, LOW)` succeeds: no injected
failure and the pin has a mode set at the driver layer. -/
def writeOk (f : DriverFail) (modes : List Int) (p : Int) : Bool :=
  !f.outputFails p 0 && decide (p ∈ modes)

theorem lookupA_setA {β : Type} (m : List (Int × β)) (k j : Int) (v : β) :
    lookupA (setA m k v) j = if k = j then some v else lookupA m j := by
  induction m with
  | nil => simp [setA, lookupA]
  | cons hd tl ih =>
    obtain ⟨k', v'⟩ := hd
    by_cases hk : k' = k
    · subst hk
      by_cases hj : k' = j <;> simp [setA, lookupA, hj]
    · by_cases hj : k' = j
      · subst hj
        have hkj : ¬(k = k') := fun h => hk h.symm
        simp [setA, lookupA, hk, hkj]
      · simp [setA, lookupA, hk, hj, ih]

theorem keyCount_setA {β : Type} (m : List (Int × β)) (k j : Int) (v : β) :
    keyCount (setA m k v) j = if k = j then max 1 (keyCount m j) else keyCount m j := by
  induction m with
  | nil =>
    by_cases h : k = j <;> simp [setA, keyCount, h]
  | cons hd tl ih =>
    obtain ⟨k', v'⟩ := hd
    by_cases hk : k' = k
    · subst hk
      by_cases hj : k' = j <;> simp [setA, keyCount, hj]
    · by_cases hj : k' = j
      · subst hj
        have hkj : ¬(k = k') := fun h => hk h.symm
        simp [setA, keyCount, hk, hkj, ih]
      · simp [setA, keyCount, hk, hj, ih]

theorem mem_insertPin (p j : Int) (l : List Int) :
    j ∈ insertPin p l ↔ j = p ∨ j ∈ l := by
  by_cases h : p ∈ l
  · simp only [insertPin, if_pos h]
    constructor
    · exact fun hj => Or.inr hj
    · rintro (rfl | hj)
      · exact h
      · exact hj
  · simp [insertPin, if_neg h]
    tauto

theorem setup_pin_invalid (f : DriverFail) (pin : Int) (i : Nat) (s : CtrlState)
    (h : pin ∉ validPins) : setup_pin f pin i s = .ok false s := by
  simp [setup_pin, validate_pin, h, catchFalse]

theorem setup_pin_locked (f : DriverFail) (pin : Int) (i : Nat) (s : CtrlState)
    (h1 : pin ∈ validPins) (h2 : s.lockHeld = true) : setup_pin f pin i s = .dead s := by
  simp [setup_pin, validate_pin, h1, withLock, h2, catchFalse]

theorem setup_pin_drv_fail (f : DriverFail) (pin : Int) (i : Nat) (s : CtrlState)
    (h1 : pin ∈ validPins) (h2 : s.lockHeld = false) (h3 : f.setupFails pin i = true) :
    setup_pin f pin i s = .ok false { s with trace := s.trace ++ [DrvCall.setup pin i] } := by
  obtain ⟨cp, ps, lh, ii, dr, tr⟩ := s
  simp only [CtrlState.lockHeld] at h2
  subst h2
  simp [setup_pin, validate_pin, h1, withLock, gpioSetup, traced, h3, relLock, catchFalse]

theorem setup_pin_ok (f : DriverFail) (pin : Int) (i : Nat) (s : CtrlState)
    (h1 : pin ∈ validPins) (h2 : s.lockHeld = false) (h3 : f.setupFails pin i = false) :
    setup_pin f pin i s =
      .ok true { s with configuredPins := insertPin pin s.configuredPins,
                        pinStates := setA s.pinStates pin i,
                        drv := { pinModes := insertPin pin s.drv.pinModes,
                                 pinLevels := setA s.drv.pinLevels pin i },
                        trace := s.trace ++ [DrvCall.setup pin i] } := by
  obtain ⟨cp, ps, lh, ii, dr, tr⟩ := s
  simp only [CtrlState.lockHeld] at h2
  subst h2
  simp [setup_pin, validate_pin, h1, withLock, gpioSetup, traced, h3, relLock, catchFalse]

theorem turn_off_conf_locked (f : DriverFail) (pin : Int) (s : CtrlState)
    (h1 : pin ∈ s.configuredPins) (h2 : s.lockHeld = true) : turn_off f pin s = .dead s := by
  simp [turn_off, h1, turn_off_write, withLock, h2, catchFalse]

theorem turn_off_conf_ok (f : DriverFail) (pin : Int) (s : CtrlState)
    (h1 : pin ∈ s.configuredPins) (h2 : s.lockHeld = false)
    (h3 : f.outputFails pin 0 = false) (h4 : pin ∈ s.drv.pinModes) :
    turn_off f pin s =
      .ok true { s with pinStates := setA s.pinStates pin 0,
                        drv := { s.drv with pinLevels := setA s.drv.pinLevels pin 0 },
                        trace := s.trace ++ [DrvCall.output pin 0] } := by
  obtain ⟨cp, ps, lh, ii, dr, tr⟩ := s
  simp only [CtrlState.lockHeld] at h2
  subst h2
  simp [turn_off, h1, turn_off_write, withLock, gpioOutput, traced, h3, h4, relLock, catchFalse]

theorem turn_off_conf_fail (f : DriverFail) (pin : Int) (s : CtrlState)
    (h1 : pin ∈ s.configuredPins) (h2 : s.lockHeld = false)
    (h3 : f.outputFails pin 0 = true ∨ pin ∉ s.drv.pinModes) :
    turn_off f pin s = .ok false { s with trace := s.trace ++ [DrvCall.output pin 0] } := by
  obtain ⟨cp, ps, lh, ii, dr, tr⟩ := s
  simp only [CtrlState.lockHeld] at h2
  subst h2
  have h3' : (f.outputFails pin 0 = true ∨ pin ∉ dr.pinModes) := h3
  simp [turn_off, h1, turn_off_write, withLock, gpioOutput, traced, relLock, catchFalse, h3']

theorem turn_on_write_ok (f : DriverFail) (pin : Int) (s : CtrlState)
    (h2 : s.lockHeld = false) (h3 : f.outputFails pin 1 = false) (h4 : pin ∈ s.drv.pinModes) :
    turn_on_write f pin s =
      .ok true { s with pinStates := setA s.pinStates pin 1,
                        drv := { s.drv with pinLevels := setA s.drv.pinLevels pin 1 },
                        trace := s.trace ++ [DrvCall.output pin 1] } := by
  obtain ⟨cp, ps, lh, ii, dr, tr⟩ := s
  simp only [CtrlState.lockHeld] at h2
  subst h2
  simp [turn_on_write, withLock, gpioOutput, traced, h3, h4, relLock]

theorem turn_on_write_fail (f : DriverFail) (pin : Int) (s : CtrlState)
    (h2 : s.lockHeld = false) (h3 : f.outputFails pin 1 = true ∨ pin ∉ s.drv.pinModes) :
    turn_on_write f pin s = .exn { s with trace := s.trace ++ [DrvCall.output pin 1] } := by
  obtain ⟨cp, ps, lh, ii, dr, tr⟩ := s
  simp only [CtrlState.lockHeld] at h2
  subst h2
  have h3' : (f.outputFails pin 1 = true ∨ pin ∉ dr.pinModes) := h3
  simp [turn_on_write, withLock, gpioOutput, traced, relLock, h3']

theorem turn_on_conf_ok (f : DriverFail) (pin : Int) (s : CtrlState)
    (h1 : pin ∈ s.configuredPins) (h2 : s.lockHeld = false)
    (h3 : f.outputFails pin 1 = false) (h4 : pin ∈ s.drv.pinModes) :
    turn_on f pin s =
      .ok true { s with pinStates := setA s.pinStates pin 1,
                        drv := { s.drv with pinLevels := setA s.drv.pinLevels pin 1 },
                        trace := s.trace ++ [DrvCall.output pin 1] } := by
  unfold turn_on
  rw [if_pos h1, turn_on_write_ok f pin s h2 h3 h4]
  rfl

theorem get_pin_state_conf_ok (f : DriverFail) (pin : Int) (s : CtrlState)
    (h1 : pin ∈ s.configuredPins) (h2 : s.lockHeld = false)
    (h3 : f.inputFails pin = false) :
    get_pin_state f pin s =
      .ok (some ((lookupA s.drv.pinLevels pin).getD 0))
        { s with pinStates := setA s.pinStates pin ((lookupA s.drv.pinLevels pin).getD 0),
                 trace := s.trace ++ [DrvCall.input pin] } := by
  obtain ⟨cp, ps, lh, ii, dr, tr⟩ := s
  simp only [CtrlState.lockHeld] at h2
  subst h2
  simp [get_pin_state, h1, withLock, gpioInput, h3, traced, relLock, catchNone]

theorem get_pin_state_conf_read (f : DriverFail) (pin : Int) (v : Nat) (s : CtrlState)
    (h1 : pin ∈ s.configuredPins) (h2 : s.lockHeld = false)
    (h3 : f.inputFails pin = false) (hv : lookupA s.drv.pinLevels pin = some v) :
    get_pin_state f pin s =
      .ok (some v) { s with pinStates := setA s.pinStates pin v,
                            trace := s.trace ++ [DrvCall.input pin] } := by
  have h := get_pin_state_conf_ok f pin s h1 h2 h3
  rw [hv] at h
  exact h

/-- Claim C3: for every pin outside the valid identifier set {2..27},
`setup_pin` returns `False`, makes no driver call (the call trace is
unchanged) and leaves the registry (configured-pin set and level map)
untouched: the returned state is exactly the input state. -/
theorem configure_invalid_pin_rejected (f : DriverFail) (pin : Int) (initial : Nat)
    (s : CtrlState) (h : pin ∉ validPins) :
    setup_pin f pin initial s = .ok false s :=
  setup_pin_invalid f pin initial s h

/-- Witness for C3 at the concrete invalid pin 28. -/
theorem configure_invalid_pin_rejected_witness :
    ((28 : Int) ∉ validPins) ∧ setup_pin noFail 28 0 initState = .ok false initState :=
  ⟨by decide, configure_invalid_pin_rejected noFail 28 0 initState (by decide)⟩

/-- Claim C2: `get_pin_state` on an unconfigured pin returns `None`
(`Out.ok none`) with the state untouched, never `HIGH`/`LOW` (never
`some _`), and the HTTP layer's response carries `value = None`, which is
distinct from the `value = 0` / `value = 1` of any HIGH/LOW reading. -/
theorem read_level_unconfigured_absent (f : DriverFail) (pin : Int) (s : CtrlState)
    (h : pin ∉ s.configuredPins) :
    get_pin_state f pin s = .ok none s ∧
    (∀ (v : Nat) (s' : CtrlState), get_pin_state f pin s ≠ .ok (some v) s') ∧
    get_pin_status_route f pin s =
      .ok { status := "success", pin := pin, state_name := "LOW", value := none } s := by
  have h0 : get_pin_state f pin s = .ok none s := by
    simp [get_pin_state, h, catchNone]
  refine ⟨h0, ?_, ?_⟩
  · intro v s' hc
    rw [h0] at hc
    simp at hc
  · simp [get_pin_status_route, h0, pyTruthy]

/-- Witness for C2 at pin 9, unconfigured in the fresh controller state. -/
theorem read_level_unconfigured_absent_witness :
    ((9 : Int) ∉ initState.configuredPins) ∧
    (get_pin_state noFail 9 initState = .ok none initState ∧
     (∀ (v : Nat) (s' : CtrlState), get_pin_state noFail 9 initState ≠ .ok (some v) s') ∧
     get_pin_status_route noFail 9 initState =
       .ok { status := "success", pin := 9, state_name := "LOW", value := none } initState) :=
  ⟨by decide, read_level_unconfigured_absent noFail 9 initState (by decide)⟩

/-- Claim C1 (code bug): `cleanup` on an initialized controller with an
empty registry does run `turn_all_off`, the driver `cleanup`, and clears
the flags, and a second call is a no-op leaving the registry empty — but
as soon as one pin is configured, `cleanup` deadlocks: it holds the
non-reentrant `threading.Lock` (line 268) while `turn_all_off` → `turn_off`
re-acquires the same lock (line 160), so the call never returns and neither
the driver `releaseAll` nor the registry clearing is reached. -/
theorem release_deadlocks_with_configured_pin :
    cleanup noFail initState =
      .ok () { rawState with trace := [DrvCall.setmode, DrvCall.cleanup] } ∧
    cleanup noFail { rawState with trace := [DrvCall.setmode, DrvCall.cleanup] } =
      .ok () { rawState with trace := [DrvCall.setmode, DrvCall.cleanup] } ∧
    setup_pin noFail 17 0 initState =
      .ok true { configuredPins := [17], pinStates := [(17, 0)], lockHeld := false,
                 isInitialized := true,
                 drv := { pinModes := [17], pinLevels := [(17, 0)] },
                 trace := [DrvCall.setmode, DrvCall.setup 17 0] } ∧
    cleanup noFail { configuredPins := [17], pinStates := [(17, 0)], lockHeld := false,
                     isInitialized := true,
                     drv := { pinModes := [17], pinLevels := [(17, 0)] },
                     trace := [DrvCall.setmode, DrvCall.setup 17 0] } =
      .dead { configuredPins := [17], pinStates := [(17, 0)], lockHeld := true,
              isInitialized := true,
              drv := { pinModes := [17], pinLevels := [(17, 0)] },
              trace := [DrvCall.setmode, DrvCall.setup 17 0] } := by
  refine ⟨by decide, by decide, by decide, by decide⟩

/-- Counterexample for C8: the spec says no exception ever propagates out
of the controller uncaught, but `_initialize_gpio` (called from
`__init__`) logs and re-raises, so a `setmode` failure escapes the
constructor. -/
theorem init_driver_failure_escapes :
    (initializeGpio { noFail with setmodeFails := true } rawState).isExn = true := by
  decide

/-- Claim C6: `turn_on` on a not-yet-configured pin first auto-configures
it through `setup_pin` with the default initial level `LOW = 0` (the
`DrvCall.setup pin 0` trace entry precedes the `output` entry), subject to
the same valid-pin check as explicit configuration; it returns `False`
when the pin is invalid, when the implicit configuration's driver call
fails, or when the subsequent driver write fails, and `True` with the pin
configured at level 1 when both succeed. -/
theorem set_level_auto_configures (f : DriverFail) (pin : Int) (s : CtrlState)
    (h1 : pin ∉ s.configuredPins) (h2 : s.lockHeld = false) :
    (pin ∉ validPins → turn_on f pin s = .ok false s) ∧
    (pin ∈ validPins → f.setupFails pin 0 = true →
       turn_on f pin s = .ok false { s with trace := s.trace ++ [DrvCall.setup pin 0] }) ∧
    (pin ∈ validPins → f.setupFails pin 0 = false → f.outputFails pin 1 = true →
       ∃ s', turn_on f pin s = .ok false s' ∧ pin ∈ s'.configuredPins ∧
             lookupA s'.pinStates pin = some 0 ∧
             s'.trace = s.trace ++ [DrvCall.setup pin 0, DrvCall.output pin 1]) ∧
    (pin ∈ validPins → f.setupFails pin 0 = false → f.outputFails pin 1 = false →
       ∃ s', turn_on f pin s = .ok true s' ∧ pin ∈ s'.configuredPins ∧
             lookupA s'.pinStates pin = some 1 ∧ lookupA s'.drv.pinLevels pin = some 1 ∧
             s'.trace = s.trace ++ [DrvCall.setup pin 0, DrvCall.output pin 1]) := by
  refine ⟨?_, ?_, ?_, ?_⟩
  · intro hv
    simp [turn_on, h1, setup_pin_invalid f pin 0 s hv, catchFalse]
  · intro hv hsf
    simp [turn_on, h1, setup_pin_drv_fail f pin 0 s hv h2 hsf, catchFalse]
  · intro hv hsf hof
    rw [turn_on, if_neg h1, setup_pin_ok f pin 0 s hv h2 hsf]
    rw [show (match (Out.ok true
        { s with configuredPins := insertPin pin s.configuredPins,
                 pinStates := setA s.pinStates pin 0,
                 drv := { pinModes := insertPin pin s.drv.pinModes,
                          pinLevels := setA s.drv.pinLevels pin 0 },
                 trace := s.trace ++ [DrvCall.setup pin 0] } : Out Bool) with
      | .ok true s' => turn_on_write f pin s'
      | .ok false s' => .ok false s'
      | .exn s' => .exn s'
      | .dead s' => .dead s') = turn_on_write f pin
        { s with configuredPins := insertPin pin s.configuredPins,
                 pinStates := setA s.pinStates pin 0,
                 drv := { pinModes := insertPin pin s.drv.pinModes,
                          pinLevels := setA s.drv.pinLevels pin 0 },
                 trace := s.trace ++ [DrvCall.setup pin 0] } from rfl]
    rw [turn_on_write_fail f pin _ (by simp [h2]) (Or.inl hof)]
    refine ⟨_, rfl, ?_, ?_, ?_⟩
    · exact (mem_insertPin pin pin s.configuredPins).mpr (Or.inl rfl)
    · simp [lookupA_setA]
    · simp
  · intro hv hsf hof
    rw [turn_on, if_neg h1, setup_pin_ok f pin 0 s hv h2 hsf]
    rw [show (match (Out.ok true
        { s with configuredPins := insertPin pin s.configuredPins,
                 pinStates := setA s.pinStates pin 0,
                 drv := { pinModes := insertPin pin s.drv.pinModes,
                          pinLevels := setA s.drv.pinLevels pin 0 },
                 trace := s.trace ++ [DrvCall.setup pin 0] } : Out Bool) with
      | .ok true s' => turn_on_write f pin s'
      | .ok false s' => .ok false s'
      | .exn s' => .exn s'
      | .dead s' => .dead s') = turn_on_write f pin
        { s with configuredPins := insertPin pin s.configuredPins,
                 pinStates := setA s.pinStates pin 0,
                 drv := { pinModes := insertPin pin s.drv.pinModes,
                          pinLevels := setA s.drv.pinLevels pin 0 },
                 trace := s.trace ++ [DrvCall.setup pin 0] } from rfl]
    rw [turn_on_write_ok f pin _ (by simp [h2]) hof
      ((mem_insertPin pin pin s.drv.pinModes).mpr (Or.inl rfl))]
    refine ⟨_, rfl, ?_, ?_, ?_, ?_⟩
    · exact (mem_insertPin pin pin s.configuredPins).mpr (Or.inl rfl)
    · simp [lookupA_setA]
    · simp [lookupA_setA]
    · simp

/-- Witness for C6 at the valid, initially unconfigured pin 5. -/
theorem set_level_auto_configures_witness :
    ((5 : Int) ∉ initState.configuredPins) ∧ initState.lockHeld = false ∧
    (((5 : Int) ∈ validPins → noFail.setupFails 5 0 = false → noFail.outputFails 5 1 = false →
       ∃ s', turn_on noFail 5 initState = .ok true s' ∧ (5 : Int) ∈ s'.configuredPins ∧
             lookupA s'.pinStates 5 = some 1 ∧ lookupA s'.drv.pinLevels 5 = some 1 ∧
             s'.trace = initState.trace ++ [DrvCall.setup 5 0, DrvCall.output 5 1])) :=
  ⟨by decide, rfl,
   (set_level_auto_configures noFail 5 initState (by decide) rfl).2.2.2⟩

/-- Claim C7: for every valid pin, configuring with initial LOW through
`setup_pin`, then `turn_on`, makes `get_pin_state` read back HIGH
(`some 1`) — the driver returns the freshly written level; and in the
concrete scenario configure {17, 27} at LOW, `turn_on 17`,
`get_all_pins_status` returns exactly {17: HIGH/configured,
27: LOW/configured}. -/
theorem configure_set_read_high (pin : Int) (s : CtrlState)
    (h1 : pin ∈ validPins) (h2 : s.lockHeld = false) :
    (∃ s1 s2 s3, setup_pin noFail pin 0 s = .ok true s1 ∧
                 turn_on noFail pin s1 = .ok true s2 ∧
                 get_pin_state noFail pin s2 = .ok (some 1) s3) ∧
    setup_pins noFail [17, 27] 0 initState =
      .ok [(17, true), (27, true)]
        { configuredPins := [17, 27], pinStates := [(17, 0), (27, 0)], lockHeld := false,
          isInitialized := true,
          drv := { pinModes := [17, 27], pinLevels := [(17, 0), (27, 0)] },
          trace := [DrvCall.setmode, DrvCall.setup 17 0, DrvCall.setup 27 0] } ∧
    turn_on noFail 17
        { configuredPins := [17, 27], pinStates := [(17, 0), (27, 0)], lockHeld := false,
          isInitialized := true,
          drv := { pinModes := [17, 27], pinLevels := [(17, 0), (27, 0)] },
          trace := [DrvCall.setmode, DrvCall.setup 17 0, DrvCall.setup 27 0] } =
      .ok true
        { configuredPins := [17, 27], pinStates := [(17, 1), (27, 0)], lockHeld := false,
          isInitialized := true,
          drv := { pinModes := [17, 27], pinLevels := [(17, 1), (27, 0)] },
          trace := [DrvCall.setmode, DrvCall.setup 17 0, DrvCall.setup 27 0,
                    DrvCall.output 17 1] } ∧
    (get_all_pins_status noFail
        { configuredPins := [17, 27], pinStates := [(17, 1), (27, 0)], lockHeld := false,
          isInitialized := true,
          drv := { pinModes := [17, 27], pinLevels := [(17, 1), (27, 0)] },
          trace := [DrvCall.setmode, DrvCall.setup 17 0, DrvCall.setup 27 0,
                    DrvCall.output 17 1] }).resultOf =
      some [(17, { state := some 1, state_name := "HIGH", configured := true }),
            (27, { state := some 0, state_name := "LOW", configured := true })] := by
  refine ⟨?_, by decide, by decide, by decide⟩
  have hm1 : pin ∈ insertPin pin s.configuredPins :=
    (mem_insertPin pin pin s.configuredPins).mpr (Or.inl rfl)
  have hmod : pin ∈ insertPin pin s.drv.pinModes :=
    (mem_insertPin pin pin s.drv.pinModes).mpr (Or.inl rfl)
  exact ⟨_, _, _, setup_pin_ok noFail pin 0 s h1 h2 rfl,
         turn_on_conf_ok noFail pin _ hm1 (by simp [h2]) rfl hmod,
         get_pin_state_conf_read noFail pin 1 _ hm1 (by simp [h2]) rfl
           (by simp [lookupA_setA])⟩

/-- Witness for C7 at the valid pin 5 from the fresh controller state. -/
theorem configure_set_read_high_witness :
    ((5 : Int) ∈ validPins) ∧ initState.lockHeld = false ∧
    (∃ s1 s2 s3, setup_pin noFail 5 0 initState = .ok true s1 ∧
                 turn_on noFail 5 s1 = .ok true s2 ∧
                 get_pin_state noFail 5 s2 = .ok (some 1) s3) :=
  ⟨by decide, rfl, (configure_set_read_high 5 initState (by decide) rfl).1⟩


theorem turn_all_off_loop_spec (f : DriverFail) :
    ∀ (l : List Int) (acc : Bool) (s : CtrlState),
      s.lockHeld = false → (∀ p ∈ l, p ∈ s.configuredPins) →
      ∃ s', turn_all_off_loop f l acc s = .ok (acc && l.all (writeOk f s.drv.pinModes)) s' ∧
        s'.configuredPins = s.configuredPins ∧
        s'.drv.pinModes = s.drv.pinModes ∧
        s'.lockHeld = false ∧
        s'.trace = s.trace ++ l.map (fun p => DrvCall.output p 0) ∧
        (∀ j : Int, lookupA s'.pinStates j =
            if j ∈ l ∧ writeOk f s.drv.pinModes j = true then some 0
            else lookupA s.pinStates j) ∧
        (∀ j : Int, lookupA s'.drv.pinLevels j =
            if j ∈ l ∧ writeOk f s.drv.pinModes j = true then some 0
            else lookupA s.drv.pinLevels j) := by
  intro l
  induction l with
  | nil =>
    intro acc s hl _
    exact ⟨s, by simp [turn_all_off_loop], rfl, rfl, hl, by simp, by simp, by simp⟩
  | cons p rest ih =>
    intro acc s hl hconf
    by_cases hok : writeOk f s.drv.pinModes p = true
    · have hof : f.outputFails p 0 = false := by
        simp [writeOk] at hok
        exact hok.1
      have hmem : p ∈ s.drv.pinModes := by
        simp [writeOk] at hok
        exact hok.2
      have e := turn_off_conf_ok f p s (hconf p (by simp)) hl hof hmem
      obtain ⟨s', h1, h2, h3, h4, h5, h6, h7⟩ :=
        ih (acc && true)
          { s with pinStates := setA s.pinStates p 0,
                   drv := { s.drv with pinLevels := setA s.drv.pinLevels p 0 },
                   trace := s.trace ++ [DrvCall.output p 0] }
          hl (fun q hq => hconf q (by simp [hq]))
      refine ⟨s', ?_, h2, h3, h4, ?_, ?_, ?_⟩
      · rw [turn_all_off_loop, e]
        dsimp only
        exact h1.trans (by simp [hok, List.all_cons])
      · rw [h5]
        simp
      · intro j
        rw [h6 j]
        dsimp only
        rw [lookupA_setA]
        by_cases hj3 : j = p
        · subst hj3
          simp [hok]
        · have hj3s : ¬(p = j) := fun h => hj3 h.symm
          by_cases hj1 : writeOk f s.drv.pinModes j = true <;>
            by_cases hj2 : j ∈ rest <;>
            simp [hj1, hj2, hj3, hj3s, List.mem_cons]
      · intro j
        rw [h7 j]
        dsimp only
        rw [lookupA_setA]
        by_cases hj3 : j = p
        · subst hj3
          simp [hok]
        · have hj3s : ¬(p = j) := fun h => hj3 h.symm
          by_cases hj1 : writeOk f s.drv.pinModes j = true <;>
            by_cases hj2 : j ∈ rest <;>
            simp [hj1, hj2, hj3, hj3s, List.mem_cons]
    · have hfail : f.outputFails p 0 = true ∨ p ∉ s.drv.pinModes := by
        simp [writeOk] at hok
        by_cases hf : f.outputFails p 0 = true
        · exact Or.inl hf
        · exact Or.inr (fun hm => by simp [hf, hm] at hok)
      have e := turn_off_conf_fail f p s (hconf p (by simp)) hl hfail
      obtain ⟨s', h1, h2, h3, h4, h5, h6, h7⟩ :=
        ih (acc && false) { s with trace := s.trace ++ [DrvCall.output p 0] }
          hl (fun q hq => hconf q (by simp [hq]))
      refine ⟨s', ?_, h2, h3, h4, ?_, ?_, ?_⟩
      · rw [turn_all_off_loop, e]
        dsimp only
        exact h1.trans (by simp [hok, List.all_cons])
      · rw [h5]
        simp
      · intro j
        rw [h6 j]
        dsimp only
        by_cases hj3 : j = p
        · subst hj3
          simp [hok]
        · by_cases hj1 : writeOk f s.drv.pinModes j = true <;>
            by_cases hj2 : j ∈ rest <;>
            simp [hj1, hj2, hj3, List.mem_cons]
      · intro j
        rw [h7 j]
        dsimp only
        by_cases hj3 : j = p
        · subst hj3
          simp [hok]
        · by_cases hj1 : writeOk f s.drv.pinModes j = true <;>
            by_cases hj2 : j ∈ rest <;>
            simp [hj1, hj2, hj3, List.mem_cons]

/-- Claim C4: `turn_all_off` attempts `GPIO.output(p, LOW)` for every
configured pin in order regardless of earlier failures (the trace grows by
exactly one `output p 0` entry per configured pin), returns `True` exactly
when every individual write succeeds, and every configured pin whose write
succeeds is driven to LOW both in the cached registry and at the driver —
in particular, when exactly one write fails, every other configured pin
still reaches LOW. -/
theorem all_off_best_effort (f : DriverFail) (s : CtrlState) (h : s.lockHeld = false) :
    ∃ s', turn_all_off f s = .ok (s.configuredPins.all (writeOk f s.drv.pinModes)) s' ∧
      s'.trace = s.trace ++ s.configuredPins.map (fun p => DrvCall.output p 0) ∧
      (∀ p ∈ s.configuredPins, writeOk f s.drv.pinModes p = true →
         lookupA s'.pinStates p = some 0 ∧ lookupA s'.drv.pinLevels p = some 0) := by
  obtain ⟨s', h1, h2, h3, h4, h5, h6, h7⟩ :=
    turn_all_off_loop_spec f s.configuredPins true s h (fun p hp => hp)
  refine ⟨s', ?_, h5, ?_⟩
  · rw [turn_all_off, h1]
    simp [catchFalse]
  · intro p hp hok
    constructor
    · rw [h6 p]
      simp [hp, hok]
    · rw [h7 p]
      simp [hp, hok]

/-- Witness for C4: pins {17, 27} configured at LOW then driven HIGH is not
needed — here both are configured, the write to 27 is made to fail, and the
theorem instance reports the failure while pin 17 still reaches LOW. -/
theorem all_off_best_effort_witness :
    ({ configuredPins := [17, 27], pinStates := [(17, 1), (27, 1)], lockHeld := false,
       isInitialized := true,
       drv := { pinModes := [17, 27], pinLevels := [(17, 1), (27, 1)] },
       trace := [] } : CtrlState).lockHeld = false ∧
    ∃ s', turn_all_off { noFail with outputFails := fun p _ => p == 27 }
        { configuredPins := [17, 27], pinStates := [(17, 1), (27, 1)], lockHeld := false,
          isInitialized := true,
          drv := { pinModes := [17, 27], pinLevels := [(17, 1), (27, 1)] },
          trace := [] } =
        .ok (([17, 27] : List Int).all
          (writeOk { noFail with outputFails := fun p _ => p == 27 } [17, 27])) s' ∧
      s'.trace = ([] : List DrvCall) ++ ([17, 27] : List Int).map (fun p => DrvCall.output p 0) ∧
      (∀ p ∈ ([17, 27] : List Int),
         writeOk { noFail with outputFails := fun p _ => p == 27 } [17, 27] p = true →
         lookupA s'.pinStates p = some 0 ∧ lookupA s'.drv.pinLevels p = some 0) :=
  ⟨rfl, all_off_best_effort { noFail with outputFails := fun p _ => p == 27 }
    { configuredPins := [17, 27], pinStates := [(17, 1), (27, 1)], lockHeld := false,
      isInitialized := true,
      drv := { pinModes := [17, 27], pinLevels := [(17, 1), (27, 1)] },
      trace := [] } rfl⟩


theorem setup_pins_loop_spec (f : DriverFail) (initial : Nat) :
    ∀ (pins : List Int) (acc : List (Int × Bool)) (s : CtrlState),
      s.lockHeld = false →
      ∃ res s', setup_pins_loop f initial pins acc s = .ok res s' ∧
        s'.lockHeld = false ∧
        (∀ j : Int, keyCount res j =
            if j ∈ pins then max 1 (keyCount acc j) else keyCount acc j) ∧
        s'.trace = s.trace ++
          (pins.filter (fun p => validate_pin p)).map (fun p => DrvCall.setup p initial) := by
  intro pins
  induction pins with
  | nil =>
    intro acc s hl
    exact ⟨acc, s, by simp [setup_pins_loop], hl, by simp, by simp⟩
  | cons p rest ih =>
    intro acc s hl
    have keyStepT : ∀ (b : Bool) (j : Int),
        (if j ∈ rest then max 1 (keyCount (setA acc p b) j)
         else keyCount (setA acc p b) j) =
        if j ∈ p :: rest then max 1 (keyCount acc j) else keyCount acc j := by
      intro b j
      simp only [keyCount_setA]
      by_cases hj3 : j = p
      · subst hj3
        by_cases hj2 : j ∈ rest <;> simp [hj2]
      · have hj3s : ¬(p = j) := fun h => hj3 h.symm
        by_cases hj2 : j ∈ rest <;> simp [hj2, hj3, hj3s, List.mem_cons]
    by_cases hv : p ∈ validPins
    · by_cases hsf : f.setupFails p initial = true
      · have e := setup_pin_drv_fail f p initial s hv hl hsf
        obtain ⟨res, s', h1, h2, h3, h4⟩ :=
          ih (setA acc p false) { s with trace := s.trace ++ [DrvCall.setup p initial] } hl
        refine ⟨res, s', ?_, h2, ?_, ?_⟩
        · rw [setup_pins_loop, e]
          dsimp only
          exact h1
        · intro j
          rw [h3 j]
          exact keyStepT false j
        · rw [h4]
          simp [validate_pin, hv, List.filter_cons]
      · have hsf' : f.setupFails p initial = false := by
          revert hsf
          cases f.setupFails p initial <;> simp
        have e := setup_pin_ok f p initial s hv hl hsf'
        obtain ⟨res, s', h1, h2, h3, h4⟩ :=
          ih (setA acc p true)
            { s with configuredPins := insertPin p s.configuredPins,
                     pinStates := setA s.pinStates p initial,
                     drv := { pinModes := insertPin p s.drv.pinModes,
                              pinLevels := setA s.drv.pinLevels p initial },
                     trace := s.trace ++ [DrvCall.setup p initial] } hl
        refine ⟨res, s', ?_, h2, ?_, ?_⟩
        · rw [setup_pins_loop, e]
          dsimp only
          exact h1
        · intro j
          rw [h3 j]
          exact keyStepT true j
        · rw [h4]
          simp [validate_pin, hv, List.filter_cons]
    · have e := setup_pin_invalid f p initial s hv
      obtain ⟨res, s', h1, h2, h3, h4⟩ := ih (setA acc p false) s hl
      refine ⟨res, s', ?_, h2, ?_, ?_⟩
      · rw [setup_pins_loop, e]
        dsimp only
        exact h1
      · intro j
        rw [h3 j]
        exact keyStepT false j
      · rw [h4]
        simp [validate_pin, hv, List.filter_cons]

/-- Claim C5: `setup_pins` applies `setup_pin` to each input pin in the
given order and never stops early: the result dict has exactly one entry
per input pin (`keyCount = 1`; duplicates collapse into the one dict slot,
as Python dicts do), and the trace shows one driver `setup` attempt for
every valid input pin in input order, regardless of earlier failures —
invalid pins are rejected before any driver call but still receive their
`False` entry. -/
theorem configure_many_independent (f : DriverFail) (pins : List Int) (initial : Nat)
    (s : CtrlState) (h : s.lockHeld = false) :
    ∃ res s', setup_pins f pins initial s = .ok res s' ∧
      (∀ j : Int, keyCount res j = if j ∈ pins then 1 else 0) ∧
      s'.trace = s.trace ++
        (pins.filter (fun p => validate_pin p)).map (fun p => DrvCall.setup p initial) := by
  obtain ⟨res, s', h1, h2, h3, h4⟩ := setup_pins_loop_spec f initial pins [] s h
  refine ⟨res, s', h1, ?_, h4⟩
  intro j
  rw [h3 j]
  simp [keyCount]

/-- Witness for C5: the mixed list [2, 99, 3] (99 invalid) from the fresh
state: every pin gets exactly one entry and both valid pins are
attempted. -/
theorem configure_many_independent_witness :
    initState.lockHeld = false ∧
    (∃ res s', setup_pins noFail [2, 99, 3] 0 initState = .ok res s' ∧
      (∀ j : Int, keyCount res j = if j ∈ ([2, 99, 3] : List Int) then 1 else 0) ∧
      s'.trace = initState.trace ++
        (([2, 99, 3] : List Int).filter (fun p => validate_pin p)).map
          (fun p => DrvCall.setup p 0)) :=
  ⟨rfl, configure_many_independent noFail [2, 99, 3] 0 initState rfl⟩


theorem catchFalse_not_exn (r : Out Bool) : (catchFalse r).isExn = false := by
  cases r <;> simp [catchFalse, Out.isExn]

theorem catchNone_not_exn (r : Out (Option Nat)) : (catchNone r).isExn = false := by
  cases r <;> simp [catchNone, Out.isExn]

theorem catchUnit_not_exn (r : Out Unit) : (catchUnit r).isExn = false := by
  cases r <;> simp [catchUnit, Out.isExn]

theorem setup_pin_not_exn (f : DriverFail) (p : Int) (i : Nat) (s : CtrlState) :
    (setup_pin f p i s).isExn = false := by
  rw [setup_pin]
  exact catchFalse_not_exn _

theorem turn_on_not_exn (f : DriverFail) (p : Int) (s : CtrlState) :
    (turn_on f p s).isExn = false := by
  rw [turn_on]
  exact catchFalse_not_exn _

theorem turn_off_not_exn (f : DriverFail) (p : Int) (s : CtrlState) :
    (turn_off f p s).isExn = false := by
  rw [turn_off]
  exact catchFalse_not_exn _

theorem toggle_not_exn (f : DriverFail) (p : Int) (s : CtrlState) :
    (toggle f p s).isExn = false := by
  rw [toggle]
  exact catchFalse_not_exn _

theorem get_pin_state_not_exn (f : DriverFail) (p : Int) (s : CtrlState) :
    (get_pin_state f p s).isExn = false := by
  rw [get_pin_state]
  exact catchNone_not_exn _

theorem pulse_not_exn (f : DriverFail) (p : Int) (s : CtrlState) :
    (pulse f p s).isExn = false := by
  rw [pulse]
  exact catchFalse_not_exn _

theorem blink_not_exn (f : DriverFail) (p : Int) (n : Nat) (s : CtrlState) :
    (blink f p n s).isExn = false := by
  rw [blink]
  exact catchFalse_not_exn _

theorem turn_all_off_not_exn (f : DriverFail) (s : CtrlState) :
    (turn_all_off f s).isExn = false := by
  rw [turn_all_off]
  exact catchFalse_not_exn _

theorem cleanup_not_exn (f : DriverFail) (s : CtrlState) :
    (cleanup f s).isExn = false := by
  rw [cleanup]
  exact catchUnit_not_exn _

theorem setup_pins_loop_not_exn (f : DriverFail) (i : Nat) :
    ∀ (pins : List Int) (acc : List (Int × Bool)) (s : CtrlState),
      (setup_pins_loop f i pins acc s).isExn = false := by
  intro pins
  induction pins with
  | nil => intro acc s; simp [setup_pins_loop, Out.isExn]
  | cons p rest ih =>
    intro acc s
    rw [setup_pins_loop]
    cases h : setup_pin f p i s with
    | ok b s' => exact ih (setA acc p b) s'
    | exn s' =>
      have := setup_pin_not_exn f p i s
      rw [h] at this
      simp [Out.isExn] at this
    | dead s' => simp [Out.isExn]

theorem setup_pins_not_exn (f : DriverFail) (pins : List Int) (i : Nat) (s : CtrlState) :
    (setup_pins f pins i s).isExn = false :=
  setup_pins_loop_not_exn f i pins [] s

theorem get_all_pins_status_loop_not_exn (f : DriverFail) :
    ∀ (pins : List Int) (acc : List (Int × PinStatus)) (s : CtrlState),
      (get_all_pins_status_loop f pins acc s).isExn = false := by
  intro pins
  induction pins with
  | nil => intro acc s; simp [get_all_pins_status_loop, Out.isExn]
  | cons p rest ih =>
    intro acc s
    rw [get_all_pins_status_loop]
    cases h : get_pin_state f p s with
    | ok st s' =>
      exact ih _ s'
    | exn s' =>
      have := get_pin_state_not_exn f p s
      rw [h] at this
      simp [Out.isExn] at this
    | dead s' => simp [Out.isExn]

theorem get_all_pins_status_not_exn (f : DriverFail) (s : CtrlState) :
    (get_all_pins_status f s).isExn = false :=
  get_all_pins_status_loop_not_exn f s.configuredPins [] s

theorem toUnit_isExn {α : Type} (r : Out α) : (Out.toUnit r).isExn = r.isExn := by
  cases r <;> rfl

/-- Claim C8 (amended): every *public* controller operation catches any
lower-level failure and converts it into its defined boolean/optional
failure return — for every driver failure pattern, operation and state,
the outcome is never an uncaught exception.  (The original claim is
refuted by `_initialize_gpio`, which logs and re-raises, so a driver
failure during construction escapes — see the counterexample.) -/
theorem public_ops_catch_failures (f : DriverFail) (o : Op) (s : CtrlState) :
    (applyOp f o s).isExn = false := by
  cases o <;>
    simp [applyOp, toUnit_isExn, setup_pin_not_exn, setup_pins_not_exn, turn_on_not_exn,
          turn_off_not_exn, toggle_not_exn, get_pin_state_not_exn, get_all_pins_status_not_exn,
          pulse_not_exn, blink_not_exn, turn_all_off_not_exn, cleanup_not_exn]


theorem turn_off_write_ok (f : DriverFail) (pin : Int) (s : CtrlState)
    (h2 : s.lockHeld = false) (h3 : f.outputFails pin 0 = false) (h4 : pin ∈ s.drv.pinModes) :
    turn_off_write f pin s =
      .ok true { s with pinStates := setA s.pinStates pin 0,
                        drv := { s.drv with pinLevels := setA s.drv.pinLevels pin 0 },
                        trace := s.trace ++ [DrvCall.output pin 0] } := by
  obtain ⟨cp, ps, lh, ii, dr, tr⟩ := s
  simp only [CtrlState.lockHeld] at h2
  subst h2
  simp [turn_off_write, withLock, gpioOutput, traced, h3, h4, relLock]

theorem turn_off_write_fail (f : DriverFail) (pin : Int) (s : CtrlState)
    (h2 : s.lockHeld = false) (h3 : f.outputFails pin 0 = true ∨ pin ∉ s.drv.pinModes) :
    turn_off_write f pin s = .exn { s with trace := s.trace ++ [DrvCall.output pin 0] } := by
  obtain ⟨cp, ps, lh, ii, dr, tr⟩ := s
  simp only [CtrlState.lockHeld] at h2
  subst h2
  have h3' : (f.outputFails pin 0 = true ∨ pin ∉ dr.pinModes) := h3
  simp [turn_off_write, withLock, gpioOutput, traced, relLock, h3']

theorem turn_on_write_locked (f : DriverFail) (pin : Int) (s : CtrlState)
    (h : s.lockHeld = true) : turn_on_write f pin s = .dead s := by
  simp [turn_on_write, withLock, h]

theorem turn_off_write_locked (f : DriverFail) (pin : Int) (s : CtrlState)
    (h : s.lockHeld = true) : turn_off_write f pin s = .dead s := by
  simp [turn_off_write, withLock, h]

theorem bool_not_true {b : Bool} (h : ¬(b = true)) : b = false := by
  revert h
  cases b <;> simp

theorem setup_pin_cases (f : DriverFail) (p : Int) (i : Nat) (s : CtrlState) :
    (∃ s', setup_pin f p i s = .ok false s' ∧ s'.configuredPins = s.configuredPins ∧
           s'.pinStates = s.pinStates) ∨
    (∃ s', setup_pin f p i s = .ok true s' ∧ s'.configuredPins = insertPin p s.configuredPins ∧
           s'.pinStates = setA s.pinStates p i) ∨
    setup_pin f p i s = .dead s := by
  by_cases hv : p ∈ validPins
  · by_cases hl : s.lockHeld = true
    · exact Or.inr (Or.inr (setup_pin_locked f p i s hv hl))
    · have hl' : s.lockHeld = false := bool_not_true hl
      by_cases hsf : f.setupFails p i = true
      · exact Or.inl ⟨_, setup_pin_drv_fail f p i s hv hl' hsf, rfl, rfl⟩
      · exact Or.inr (Or.inl ⟨_, setup_pin_ok f p i s hv hl' (bool_not_true hsf), rfl, rfl⟩)
  · exact Or.inl ⟨s, setup_pin_invalid f p i s hv, rfl, rfl⟩

theorem turn_on_write_cases (f : DriverFail) (p : Int) (s : CtrlState) :
    (∃ s', turn_on_write f p s = .ok true s' ∧ s'.configuredPins = s.configuredPins ∧
           s'.pinStates = setA s.pinStates p 1) ∨
    (∃ s', turn_on_write f p s = .exn s' ∧ s'.configuredPins = s.configuredPins ∧
           s'.pinStates = s.pinStates) ∨
    turn_on_write f p s = .dead s := by
  by_cases hl : s.lockHeld = true
  · exact Or.inr (Or.inr (turn_on_write_locked f p s hl))
  · have hl' : s.lockHeld = false := bool_not_true hl
    by_cases hof : f.outputFails p 1 = true
    · exact Or.inr (Or.inl ⟨_, turn_on_write_fail f p s hl' (Or.inl hof), rfl, rfl⟩)
    · by_cases hm : p ∈ s.drv.pinModes
      · exact Or.inl ⟨_, turn_on_write_ok f p s hl' (bool_not_true hof) hm, rfl, rfl⟩
      · exact Or.inr (Or.inl ⟨_, turn_on_write_fail f p s hl' (Or.inr hm), rfl, rfl⟩)

theorem turn_off_write_cases (f : DriverFail) (p : Int) (s : CtrlState) :
    (∃ s', turn_off_write f p s = .ok true s' ∧ s'.configuredPins = s.configuredPins ∧
           s'.pinStates = setA s.pinStates p 0) ∨
    (∃ s', turn_off_write f p s = .exn s' ∧ s'.configuredPins = s.configuredPins ∧
           s'.pinStates = s.pinStates) ∨
    turn_off_write f p s = .dead s := by
  by_cases hl : s.lockHeld = true
  · exact Or.inr (Or.inr (turn_off_write_locked f p s hl))
  · have hl' : s.lockHeld = false := bool_not_true hl
    by_cases hof : f.outputFails p 0 = true
    · exact Or.inr (Or.inl ⟨_, turn_off_write_fail f p s hl' (Or.inl hof), rfl, rfl⟩)
    · by_cases hm : p ∈ s.drv.pinModes
      · exact Or.inl ⟨_, turn_off_write_ok f p s hl' (bool_not_true hof) hm, rfl, rfl⟩
      · exact Or.inr (Or.inl ⟨_, turn_off_write_fail f p s hl' (Or.inr hm), rfl, rfl⟩)

theorem get_pin_state_locked (f : DriverFail) (p : Int) (s : CtrlState)
    (h1 : p ∈ s.configuredPins) (h2 : s.lockHeld = true) :
    get_pin_state f p s = .dead s := by
  simp [get_pin_state, h1, withLock, h2, catchNone]

theorem get_pin_state_input_fail (f : DriverFail) (p : Int) (s : CtrlState)
    (h1 : p ∈ s.configuredPins) (h2 : s.lockHeld = false) (h3 : f.inputFails p = true) :
    get_pin_state f p s = .ok none { s with trace := s.trace ++ [DrvCall.input p] } := by
  obtain ⟨cp, ps, lh, ii, dr, tr⟩ := s
  simp only [CtrlState.lockHeld] at h2
  subst h2
  simp [get_pin_state, h1, withLock, gpioInput, traced, h3, relLock, catchNone]

theorem get_pin_state_cases (f : DriverFail) (p : Int) (s : CtrlState) :
    (∃ s', get_pin_state f p s = .ok none s' ∧ s'.configuredPins = s.configuredPins ∧
           s'.pinStates = s.pinStates) ∨
    (∃ v s', get_pin_state f p s = .ok (some v) s' ∧ p ∈ s.configuredPins ∧
             s'.configuredPins = s.configuredPins ∧ s'.pinStates = setA s.pinStates p v) ∨
    get_pin_state f p s = .dead s := by
  by_cases hm : p ∈ s.configuredPins
  · by_cases hl : s.lockHeld = true
    · exact Or.inr (Or.inr (get_pin_state_locked f p s hm hl))
    · have hl' : s.lockHeld = false := bool_not_true hl
      by_cases hif : f.inputFails p = true
      · exact Or.inl ⟨_, get_pin_state_input_fail f p s hm hl' hif, rfl, rfl⟩
      · exact Or.inr (Or.inl ⟨_, _,
          get_pin_state_conf_ok f p s hm hl' (bool_not_true hif), hm, rfl, rfl⟩)
  · exact Or.inl ⟨s, by simp [get_pin_state, hm, catchNone], rfl, rfl⟩


theorem regInv_of_fields (s s' : CtrlState) (hc : s'.configuredPins = s.configuredPins)
    (hp : s'.pinStates = s.pinStates) (h : regInv s) : regInv s' := by
  intro j
  rw [hc, hp]
  exact h j

theorem regInv_insert_setA (s s' : CtrlState) (p : Int) (v : Nat)
    (hc : s'.configuredPins = insertPin p s.configuredPins)
    (hp : s'.pinStates = setA s.pinStates p v) (h : regInv s) : regInv s' := by
  intro j
  rw [hc, hp, mem_insertPin, lookupA_setA]
  by_cases hj : p = j
  · subst hj
    simp
  · have hj' : ¬(j = p) := fun hh => hj hh.symm
    simp [hj, hj', h j]

theorem regInv_setA_mem (s s' : CtrlState) (p : Int) (v : Nat)
    (hpm : p ∈ s.configuredPins)
    (hc : s'.configuredPins = s.configuredPins)
    (hp : s'.pinStates = setA s.pinStates p v) (h : regInv s) : regInv s' := by
  intro j
  rw [hc, hp, lookupA_setA]
  by_cases hj : p = j
  · subst hj
    simp [hpm]
  · simp [hj, h j]

theorem catchFalse_state (r : Out Bool) : (catchFalse r).state = r.state := by
  cases r <;> rfl

theorem catchNone_state (r : Out (Option Nat)) : (catchNone r).state = r.state := by
  cases r <;> rfl

theorem catchUnit_state (r : Out Unit) : (catchUnit r).state = r.state := by
  cases r <;> rfl

theorem toUnit_state {α : Type} (r : Out α) : (Out.toUnit r).state = r.state := by
  cases r <;> rfl

theorem withLock_inv {α : Type} (s : CtrlState) (body : CtrlState → Out α)
    (hs : regInv s) (hb : ∀ t, regInv t → regInv (body t).state) :
    regInv (withLock s body).state := by
  unfold withLock
  by_cases hl : s.lockHeld = true
  · rw [if_pos hl]
    exact hs
  · rw [if_neg hl]
    have h2 := hb { s with lockHeld := true } (regInv_of_fields s _ rfl rfl hs)
    cases e : body { s with lockHeld := true } with
    | ok a s' =>
      rw [e] at h2
      exact regInv_of_fields s' _ rfl rfl h2
    | exn s' =>
      rw [e] at h2
      exact regInv_of_fields s' _ rfl rfl h2
    | dead s' =>
      rw [e] at h2
      exact h2

theorem setup_pin_inv (f : DriverFail) (p : Int) (i : Nat) (s : CtrlState)
    (h : regInv s) : regInv (setup_pin f p i s).state := by
  rcases setup_pin_cases f p i s with ⟨s', e, hc, hp⟩ | ⟨s', e, hc, hp⟩ | e <;> rw [e]
  · exact regInv_of_fields s s' hc hp h
  · exact regInv_insert_setA s s' p i hc hp h
  · exact h

theorem turn_on_write_inv (f : DriverFail) (p : Int) (s : CtrlState)
    (hm : p ∈ s.configuredPins) (h : regInv s) : regInv (turn_on_write f p s).state := by
  rcases turn_on_write_cases f p s with ⟨s', e, hc, hp⟩ | ⟨s', e, hc, hp⟩ | e <;> rw [e]
  · exact regInv_setA_mem s s' p 1 hm hc hp h
  · exact regInv_of_fields s s' hc hp h
  · exact h

theorem turn_off_write_inv (f : DriverFail) (p : Int) (s : CtrlState)
    (hm : p ∈ s.configuredPins) (h : regInv s) : regInv (turn_off_write f p s).state := by
  rcases turn_off_write_cases f p s with ⟨s', e, hc, hp⟩ | ⟨s', e, hc, hp⟩ | e <;> rw [e]
  · exact regInv_setA_mem s s' p 0 hm hc hp h
  · exact regInv_of_fields s s' hc hp h
  · exact h

theorem turn_on_inv (f : DriverFail) (p : Int) (s : CtrlState)
    (h : regInv s) : regInv (turn_on f p s).state := by
  rw [turn_on, catchFalse_state]
  by_cases hm : p ∈ s.configuredPins
  · rw [if_pos hm]
    exact turn_on_write_inv f p s hm h
  · rw [if_neg hm]
    rcases setup_pin_cases f p 0 s with ⟨s', e, hc, hp⟩ | ⟨s', e, hc, hp⟩ | e <;> rw [e]
    · exact regInv_of_fields s s' hc hp h
    · have hs' : regInv s' := regInv_insert_setA s s' p 0 hc hp h
      have hp' : p ∈ s'.configuredPins := by
        rw [hc]
        exact (mem_insertPin p p s.configuredPins).mpr (Or.inl rfl)
      exact turn_on_write_inv f p s' hp' hs'
    · exact h

theorem turn_off_inv (f : DriverFail) (p : Int) (s : CtrlState)
    (h : regInv s) : regInv (turn_off f p s).state := by
  rw [turn_off, catchFalse_state]
  by_cases hm : p ∈ s.configuredPins
  · rw [if_pos hm]
    exact turn_off_write_inv f p s hm h
  · rw [if_neg hm]
    rcases setup_pin_cases f p 0 s with ⟨s', e, hc, hp⟩ | ⟨s', e, hc, hp⟩ | e <;> rw [e]
    · exact regInv_of_fields s s' hc hp h
    · have hs' : regInv s' := regInv_insert_setA s s' p 0 hc hp h
      have hp' : p ∈ s'.configuredPins := by
        rw [hc]
        exact (mem_insertPin p p s.configuredPins).mpr (Or.inl rfl)
      exact turn_off_write_inv f p s' hp' hs'
    · exact h

theorem get_pin_state_inv (f : DriverFail) (p : Int) (s : CtrlState)
    (h : regInv s) : regInv (get_pin_state f p s).state := by
  rcases get_pin_state_cases f p s with ⟨s', e, hc, hp⟩ | ⟨v, s', e, hpm, hc, hp⟩ | e <;> rw [e]
  · exact regInv_of_fields s s' hc hp h
  · exact regInv_setA_mem s s' p v hpm hc hp h
  · exact h

theorem toggle_inv (f : DriverFail) (p : Int) (s : CtrlState)
    (h : regInv s) : regInv (toggle f p s).state := by
  rw [toggle, catchFalse_state]
  rcases get_pin_state_cases f p s with ⟨s', e, hc, hp⟩ | ⟨v, s', e, hpm, hc, hp⟩ | e <;> rw [e]
  · exact turn_on_inv f p s' (regInv_of_fields s s' hc hp h)
  · have hs' : regInv s' := regInv_setA_mem s s' p v hpm hc hp h
    show regInv (if some v = some 1 then turn_off f p s' else turn_on f p s').state
    split
    · exact turn_off_inv f p s' hs'
    · exact turn_on_inv f p s' hs'
  · exact h

theorem pulse_inv (f : DriverFail) (p : Int) (s : CtrlState)
    (h : regInv s) : regInv (pulse f p s).state := by
  rw [pulse, catchFalse_state]
  cases e : turn_on f p s with
  | ok b s' =>
    have hs' : regInv s' := by
      have h2 := turn_on_inv f p s h
      rw [e] at h2
      exact h2
    cases b
    · exact hs'
    · exact turn_off_inv f p s' hs'
  | exn s' =>
    have h2 := turn_on_inv f p s h
    rw [e] at h2
    exact h2
  | dead s' =>
    have h2 := turn_on_inv f p s h
    rw [e] at h2
    exact h2

theorem blink_loop_inv (f : DriverFail) (p : Int) :
    ∀ (n : Nat) (s : CtrlState), regInv s → regInv (blink_loop f p n s).state := by
  intro n
  induction n with
  | zero =>
    intro s h
    exact h
  | succ n ih =>
    intro s h
    rw [blink_loop]
    cases e : turn_on f p s with
    | ok b s' =>
      have hs' : regInv s' := by
        have h2 := turn_on_inv f p s h
        rw [e] at h2
        exact h2
      cases b
      · exact hs'
      · dsimp only
        cases e2 : turn_off f p s' with
        | ok b2 s'' =>
          have hs'' : regInv s'' := by
            have h2 := turn_off_inv f p s' hs'
            rw [e2] at h2
            exact h2
          cases b2
          · exact hs''
          · exact ih s'' hs''
        | exn s'' =>
          have h2 := turn_off_inv f p s' hs'
          rw [e2] at h2
          exact h2
        | dead s'' =>
          have h2 := turn_off_inv f p s' hs'
          rw [e2] at h2
          exact h2
    | exn s' =>
      have h2 := turn_on_inv f p s h
      rw [e] at h2
      exact h2
    | dead s' =>
      have h2 := turn_on_inv f p s h
      rw [e] at h2
      exact h2

theorem blink_inv (f : DriverFail) (p : Int) (n : Nat) (s : CtrlState)
    (h : regInv s) : regInv (blink f p n s).state := by
  rw [blink, catchFalse_state]
  exact blink_loop_inv f p n s h

theorem setup_pins_loop_inv (f : DriverFail) (i : Nat) :
    ∀ (pins : List Int) (acc : List (Int × Bool)) (s : CtrlState),
      regInv s → regInv (setup_pins_loop f i pins acc s).state := by
  intro pins
  induction pins with
  | nil =>
    intro acc s h
    exact h
  | cons p rest ih =>
    intro acc s h
    rw [setup_pins_loop]
    cases e : setup_pin f p i s with
    | ok b s' =>
      have hs' : regInv s' := by
        have h2 := setup_pin_inv f p i s h
        rw [e] at h2
        exact h2
      exact ih (setA acc p b) s' hs'
    | exn s' =>
      have h2 := setup_pin_inv f p i s h
      rw [e] at h2
      exact h2
    | dead s' =>
      have h2 := setup_pin_inv f p i s h
      rw [e] at h2
      exact h2

theorem turn_all_off_loop_inv (f : DriverFail) :
    ∀ (l : List Int) (acc : Bool) (s : CtrlState),
      regInv s → regInv (turn_all_off_loop f l acc s).state := by
  intro l
  induction l with
  | nil =>
    intro acc s h
    exact h
  | cons p rest ih =>
    intro acc s h
    rw [turn_all_off_loop]
    cases e : turn_off f p s with
    | ok b s' =>
      have hs' : regInv s' := by
        have h2 := turn_off_inv f p s h
        rw [e] at h2
        exact h2
      exact ih (acc && b) s' hs'
    | exn s' =>
      have h2 := turn_off_inv f p s h
      rw [e] at h2
      exact h2
    | dead s' =>
      have h2 := turn_off_inv f p s h
      rw [e] at h2
      exact h2

theorem turn_all_off_inv (f : DriverFail) (s : CtrlState)
    (h : regInv s) : regInv (turn_all_off f s).state := by
  rw [turn_all_off, catchFalse_state]
  exact turn_all_off_loop_inv f s.configuredPins true s h

theorem get_all_pins_status_loop_inv (f : DriverFail) :
    ∀ (l : List Int) (acc : List (Int × PinStatus)) (s : CtrlState),
      regInv s → regInv (get_all_pins_status_loop f l acc s).state := by
  intro l
  induction l with
  | nil =>
    intro acc s h
    exact h
  | cons p rest ih =>
    intro acc s h
    rw [get_all_pins_status_loop]
    cases e : get_pin_state f p s with
    | ok st s' =>
      have hs' : regInv s' := by
        have h2 := get_pin_state_inv f p s h
        rw [e] at h2
        exact h2
      exact ih _ s' hs'
    | exn s' =>
      have h2 := get_pin_state_inv f p s h
      rw [e] at h2
      exact h2
    | dead s' =>
      have h2 := get_pin_state_inv f p s h
      rw [e] at h2
      exact h2

theorem get_all_pins_status_inv (f : DriverFail) (s : CtrlState)
    (h : regInv s) : regInv (get_all_pins_status f s).state := by
  rw [get_all_pins_status]
  exact get_all_pins_status_loop_inv f s.configuredPins [] s h

theorem gpioCleanup_fields (f : DriverFail) (t : CtrlState) :
    (gpioCleanup f t).state.configuredPins = t.configuredPins ∧
    (gpioCleanup f t).state.pinStates = t.pinStates := by
  by_cases hc : f.cleanupFails = true <;>
    simp [gpioCleanup, traced, hc, Out.state]

theorem cleanup_inv (f : DriverFail) (s : CtrlState)
    (h : regInv s) : regInv (cleanup f s).state := by
  rw [cleanup, catchUnit_state]
  apply withLock_inv s _ h
  intro t ht
  by_cases hi : t.isInitialized = true
  · rw [if_pos hi]
    cases e : turn_all_off f t with
    | ok b t2 =>
      have ht2 : regInv t2 := by
        have h2 := turn_all_off_inv f t ht
        rw [e] at h2
        exact h2
      dsimp only
      cases e2 : gpioCleanup f t2 with
      | ok u t3 =>
        intro j
        simp [Out.state, lookupA]
      | exn t3 =>
        have hf := gpioCleanup_fields f t2
        rw [e2] at hf
        exact regInv_of_fields t2 t3 hf.1 hf.2 ht2
      | dead t3 =>
        have hf := gpioCleanup_fields f t2
        rw [e2] at hf
        exact regInv_of_fields t2 t3 hf.1 hf.2 ht2
    | exn t2 =>
      have h2 := turn_all_off_inv f t ht
      rw [e] at h2
      exact h2
    | dead t2 =>
      have h2 := turn_all_off_inv f t ht
      rw [e] at h2
      exact h2
  · rw [if_neg hi]
    exact ht

theorem applyOp_inv (f : DriverFail) (o : Op) (s : CtrlState)
    (h : regInv s) : regInv (applyOp f o s).state := by
  cases o <;> simp only [applyOp, toUnit_state]
  case setupPinOp p i => exact setup_pin_inv f p i s h
  case setupPinsOp ps i =>
    rw [setup_pins]
    exact setup_pins_loop_inv f i ps [] s h
  case turnOnOp p => exact turn_on_inv f p s h
  case turnOffOp p => exact turn_off_inv f p s h
  case toggleOp p => exact toggle_inv f p s h
  case getPinStateOp p => exact get_pin_state_inv f p s h
  case getAllPinsStatusOp => exact get_all_pins_status_inv f s h
  case pulseOp p => exact pulse_inv f p s h
  case blinkOp p n => exact blink_inv f p n s h
  case turnAllOffOp => exact turn_all_off_inv f s h
  case cleanupOp => exact cleanup_inv f s h

theorem runOps_inv (f : DriverFail) :
    ∀ (ops : List Op) (s : CtrlState), regInv s → regInv (runOps f ops s) := by
  intro ops
  induction ops with
  | nil =>
    intro s h
    exact h
  | cons o rest ih =>
    intro s h
    rw [runOps]
    cases e : applyOp f o s with
    | ok u s' =>
      have h2 := applyOp_inv f o s h
      rw [e] at h2
      exact ih s' h2
    | exn s' =>
      have h2 := applyOp_inv f o s h
      rw [e] at h2
      exact h2
    | dead s' =>
      have h2 := applyOp_inv f o s h
      rw [e] at h2
      exact h2


theorem initializeGpio_ok_initState (f : DriverFail) (s0 : CtrlState)
    (h : initializeGpio f rawState = .ok () s0) : s0 = initState := by
  by_cases hsm : f.setmodeFails = true
  · have he : initializeGpio f rawState =
        .exn { rawState with trace := [DrvCall.setmode] } := by
      simp [initializeGpio, withLock, rawState, gpioSetmode, traced, hsm, relLock]
    rw [he] at h
    simp at h
  · have he : initializeGpio f rawState = .ok () initState := by
      have hsm' : f.setmodeFails = false := bool_not_true hsm
      simp [initializeGpio, withLock, rawState, gpioSetmode, traced, hsm', relLock, initState]
    rw [he] at h
    have := (Out.ok.injEq () initState () s0).mp h
    exact this.2.symm

theorem regInv_initState : regInv initState := by
  intro j
  simp [initState, rawState, lookupA]

/-- Claim C10: from a freshly constructed controller (a successful
`__init__`, i.e. `_initialize_gpio` returned normally), every sequential
run of public controller operations preserves the registry invariant: a
pin is in `configured_pins` exactly when it has a cached entry in
`pin_states` — no pin ever has a cached level without being configured or
vice versa.  (A deadlocking `cleanup` stops the run; the invariant holds
at the blocked state as well.) -/
theorem registry_keys_match_states (f : DriverFail) (ops : List Op) (s0 : CtrlState)
    (h : initializeGpio f rawState = .ok () s0) : regInv (runOps f ops s0) := by
  rw [initializeGpio_ok_initState f s0 h]
  exact runOps_inv f ops initState regInv_initState

/-- Witness for C10: a run that configures pin 17, toggles it on, reads
it, and releases. -/
theorem registry_keys_match_states_witness :
    initializeGpio noFail rawState = .ok () initState ∧
    regInv (runOps noFail
      [Op.setupPinOp 17 0, Op.turnOnOp 17, Op.getPinStateOp 17, Op.cleanupOp] initState) :=
  ⟨by decide,
   registry_keys_match_states noFail
     [Op.setupPinOp 17 0, Op.turnOnOp 17, Op.getPinStateOp 17, Op.cleanupOp]
     initState (by decide)⟩


theorem ttStep_inv (pA pB : Int) (lA lB : Nat) (hne : pA ≠ pB) (t : TT) (c : Bool)
    (h : ttInv pA pB lA lB t) :
    ttInv pA pB lA lB (ttStep (setLevelActs pA lA) (setLevelActs pB lB) t c) := by
  have hne' : ¬(pB = pA) := fun hh => hne hh.symm
  obtain ⟨pcA, pcB, lockBy, reg, drvm⟩ := t
  obtain ⟨h1, h2, h3, h4, h5, h6⟩ := h
  simp only [ttInv] at *
  cases c
  · interval_cases pcB <;> cases lockBy <;>
      simp_all [ttStep, actStep, setLevelActs, lookupA_setA, hne, hne']
  · interval_cases pcA <;> cases lockBy <;>
      simp_all [ttStep, actStep, setLevelActs, lookupA_setA, hne, hne']

theorem ttRun_inv (pA pB : Int) (lA lB : Nat) (hne : pA ≠ pB) :
    ∀ (sched : List Bool) (t : TT), ttInv pA pB lA lB t →
      ttInv pA pB lA lB (ttRun (setLevelActs pA lA) (setLevelActs pB lB) t sched) := by
  intro sched
  induction sched with
  | nil =>
    intro t h
    exact h
  | cons c cs ih =>
    intro t h
    rw [ttRun]
    exact ih _ (ttStep_inv pA pB lA lB hne t c h)


/-- Counterexample for C9: not every registry observation happens under the
lock — in the `setLevel` (`turn_on`/`turn_off`) action sequence, the
`configured_pins` membership test (line 137/155) runs before
`with self.lock:` is entered, i.e. at lock depth 0. -/
theorem check_outside_lock :
    unlockedAccess touchesRegistry (setLevelActs 17 1) 0 = true := by
  decide

set_option maxHeartbeats 1600000 in
/-- Claim C9 (amended): registry *mutations* in the `setLevel` path all
happen under the lock (no unlocked mutation in the action sequence), and
concurrent `setLevel` calls on two different pins from two threads are
harmless: under every schedule in which both threads run to completion
(completion of the configured-pin, failure-free path is exactly the call
returning `True`), each pin's final recorded level — cached and at the
driver — matches its respective call, with no cross-pin corruption; a
completing schedule exists.  The original claim's stronger premise that
*all* registry observations are serialized through the lock is false: the
configured-pins check runs outside it (see the counterexample). -/
theorem concurrent_set_level_distinct_pins (pA pB : Int) (lA lB : Nat)
    (reg0 drvm0 : List (Int × Nat)) (sched : List Bool) (hne : pA ≠ pB) :
    (∀ (p : Int) (l : Nat), unlockedAccess mutatesRegistry (setLevelActs p l) 0 = false) ∧
    ((ttRun (setLevelActs pA lA) (setLevelActs pB lB)
        { pcA := 0, pcB := 0, lockBy := none, reg := reg0, drvm := drvm0 } sched).pcA = 5 →
     (ttRun (setLevelActs pA lA) (setLevelActs pB lB)
        { pcA := 0, pcB := 0, lockBy := none, reg := reg0, drvm := drvm0 } sched).pcB = 5 →
     lookupA (ttRun (setLevelActs pA lA) (setLevelActs pB lB)
        { pcA := 0, pcB := 0, lockBy := none, reg := reg0, drvm := drvm0 } sched).reg pA =
         some lA ∧
     lookupA (ttRun (setLevelActs pA lA) (setLevelActs pB lB)
        { pcA := 0, pcB := 0, lockBy := none, reg := reg0, drvm := drvm0 } sched).reg pB =
         some lB ∧
     lookupA (ttRun (setLevelActs pA lA) (setLevelActs pB lB)
        { pcA := 0, pcB := 0, lockBy := none, reg := reg0, drvm := drvm0 } sched).drvm pA =
         some lA ∧
     lookupA (ttRun (setLevelActs pA lA) (setLevelActs pB lB)
        { pcA := 0, pcB := 0, lockBy := none, reg := reg0, drvm := drvm0 } sched).drvm pB =
         some lB) ∧
    ((ttRun (setLevelActs pA lA) (setLevelActs pB lB)
        { pcA := 0, pcB := 0, lockBy := none, reg := reg0, drvm := drvm0 }
        [true, true, true, true, true, false, false, false, false, false]).pcA = 5 ∧
     (ttRun (setLevelActs pA lA) (setLevelActs pB lB)
        { pcA := 0, pcB := 0, lockBy := none, reg := reg0, drvm := drvm0 }
        [true, true, true, true, true, false, false, false, false, false]).pcB = 5) := by
  refine ⟨fun p l => rfl, ?_, ?_⟩
  · intro hA hB
    have hinv := ttRun_inv pA pB lA lB hne sched
      { pcA := 0, pcB := 0, lockBy := none, reg := reg0, drvm := drvm0 }
      (by simp [ttInv])
    obtain ⟨h1, h2, h3, h4, h5, h6⟩ := hinv
    exact ⟨h4 (by omega), h6 (by omega), h3 (by omega), h5 (by omega)⟩
  · simp [ttRun, ttStep, actStep, setLevelActs]

/-- Witness for C9 at pins 17 (HIGH) and 27 (LOW), both configured: the
sequential schedule completes both threads. -/
theorem concurrent_set_level_distinct_pins_witness :
    ((17 : Int) ≠ 27) ∧
    ((ttRun (setLevelActs 17 1) (setLevelActs 27 0)
        { pcA := 0, pcB := 0, lockBy := none, reg := [(17, 0), (27, 1)],
          drvm := [(17, 0), (27, 1)] }
        [true, true, true, true, true, false, false, false, false, false]).pcA = 5 ∧
     (ttRun (setLevelActs 17 1) (setLevelActs 27 0)
        { pcA := 0, pcB := 0, lockBy := none, reg := [(17, 0), (27, 1)],
          drvm := [(17, 0), (27, 1)] }
        [true, true, true, true, true, false, false, false, false, false]).pcB = 5) :=
  ⟨by decide,
   (concurrent_set_level_distinct_pins 17 27 1 0 [(17, 0), (27, 1)] [(17, 0), (27, 1)]
      [] (by decide)).2.2⟩

end GpioApi
